import Mathlib

/-!
Verification development for the CSV validation engine of the
`csv-parser` repository (`src/utils/validationEngine.ts`).

The engine is embedded shallowly:
* JavaScript strings are Lean `String`s; parsed CSV rows are ordered
  association lists `List (String × String)` (mirroring JS object
  key order as produced by the CSV parser).
* JavaScript numbers are modelled as exact rationals `ℚ`.  Every
  arithmetic operation performed by the engine on the values appearing
  in the claims (integer counts, percentages with small denominators,
  multiples of 0.25/0.5/1.5) is exact in IEEE doubles as well, so the
  rational model agrees with the JS semantics on those operations.
  The single place where doubles and rationals part ways (a cell whose
  numeric value overflows to `Infinity`, feeding the outlier buffer) is
  noted at the definition concerned.
* `Number(string)` is modelled by `jsToNumber`, including the `NaN`
  and `Infinity` outcomes, which the source code distinguishes.
* `new Date(string)` is modelled by `jsDateYear`, covering exactly the
  numeric `y/m/d`-shaped strings that the engine ever passes to it
  (all strings reaching the call match one of the `DATE_FORMATS`
  patterns, or are the European rearrangement thereof).  Calendar
  semantics (leap years, days per month, two-digit-year windowing)
  follow the V8 parser; time-zone offsets are not modelled since only
  the year is consulted.
-/

namespace CsvSensei

/-! ### Basic string helpers (JS string operations)

All string operations are implemented structurally on character lists
so that concrete runs of the engine reduce inside the kernel. -/

/-- ASCII lower-casing of one character (JS `toLowerCase` restricted to
the ASCII range, which covers every string the engine manipulates). -/
def lowerChar (c : Char) : Char :=
  if 'A' ≤ c ∧ c ≤ 'Z' then Char.ofNat (c.toNat + 32) else c

/-- ASCII upper-casing of one character (JS `toUpperCase`). -/
def upperChar (c : Char) : Char :=
  if 'a' ≤ c ∧ c ≤ 'z' then Char.ofNat (c.toNat - 32) else c

/-- JS `s.toLowerCase()`. -/
def jsToLower (s : String) : String := String.mk (s.toList.map lowerChar)

/-- The JS whitespace class `\s` (restricted to its ASCII members). -/
def jsIsWhitespace (c : Char) : Bool :=
  c = ' ' || c = '\t' || c = '\n' || c = '\r' || c = '\x0b' || c = '\x0c'

/-- JS `s.trim()`. -/
def jsTrim (s : String) : String :=
  String.mk (((s.toList.dropWhile jsIsWhitespace).reverse.dropWhile jsIsWhitespace).reverse)

/-- JS `s.includes(pat)`: substring containment. -/
def strIncludes (s pat : String) : Bool :=
  s.toList.tails.any (fun t => pat.toList.isPrefixOf t)

/-- JS `String.prototype.split` with a single-character separator,
on the character list level.  `"".split(c)` is `[""]`. -/
def splitOnChar (sep : Char) : List Char → List (List Char)
  | [] => [[]]
  | c :: r =>
    let rest := splitOnChar sep r
    if c = sep then [] :: rest
    else
      match rest with
      | g :: gs => (c :: g) :: gs
      | [] => [[c]]

/-! ### JavaScript `Number(string)` model -/

/-- Outcome of JS `Number(string)`: `NaN`, `±Infinity` or a finite value. -/
inductive JsNum where
  | nan : JsNum
  | posInf : JsNum
  | negInf : JsNum
  | val : ℚ → JsNum
deriving DecidableEq

/-- Numeric value of a decimal digit character. -/
def digitVal (c : Char) : ℕ := c.toNat - 48

/-- Value of a list of decimal digit characters. -/
def decDigitsVal (l : List Char) : ℕ :=
  l.foldl (fun a c => a * 10 + digitVal c) 0

/-- Hexadecimal digit predicate. -/
def isHexDigit (c : Char) : Bool :=
  c.isDigit || ('a' ≤ c && c ≤ 'f') || ('A' ≤ c && c ≤ 'F')

/-- Numeric value of a hexadecimal digit character. -/
def hexDigitVal (c : Char) : ℕ :=
  if c.isDigit then c.toNat - 48
  else if 'a' ≤ c ∧ c ≤ 'f' then c.toNat - 87
  else c.toNat - 55

/-- Parse a non-empty all-digit group in a given base. -/
def parseRadix (pred : Char → Bool) (base : ℕ) (dv : Char → ℕ) (l : List Char) : Option ℚ :=
  if l ≠ [] ∧ l.all pred then
    some ((l.foldl (fun a c => a * base + dv c) 0 : ℕ) : ℚ)
  else none

/-- Parse the exponent part of a JS decimal literal (after `e`/`E`). -/
def parseExp (l : List Char) : Option ℤ :=
  match l with
  | '+' :: r => if r ≠ [] ∧ r.all Char.isDigit then some ((decDigitsVal r : ℤ)) else none
  | '-' :: r => if r ≠ [] ∧ r.all Char.isDigit then some (-(decDigitsVal r : ℤ)) else none
  | r => if r ≠ [] ∧ r.all Char.isDigit then some ((decDigitsVal r : ℤ)) else none

/-- Parse the mantissa of a JS decimal literal: digits, optionally with
one decimal point; at least one digit overall (`"12."`, `".5"` parse,
`"."` does not). -/
def parseMantissa (l : List Char) : Option ℚ :=
  match splitOnChar '.' l with
  | [a] => if a ≠ [] ∧ a.all Char.isDigit then some ((decDigitsVal a : ℚ)) else none
  | [a, b] =>
    if (a ≠ [] ∨ b ≠ []) ∧ a.all Char.isDigit ∧ b.all Char.isDigit then
      some ((decDigitsVal a : ℚ) + (decDigitsVal b : ℚ) / 10 ^ b.length)
    else none
  | _ => none

/-- Parse an unsigned JS decimal literal, with optional exponent part. -/
def parseDecimalChars (l : List Char) : Option ℚ :=
  match l.findIdx? (fun c => c = 'e' || c = 'E') with
  | none => parseMantissa l
  | some i =>
    match parseMantissa (l.take i), parseExp (l.drop (i + 1)) with
    | some m, some e => some (m * (10 : ℚ) ^ e)
    | _, _ => none

/-- Unsigned tail of `Number(string)`: `Infinity` or a decimal literal.
An overflowing literal such as `1e999` is kept as an exact rational
here, whereas IEEE doubles would round it to `Infinity`; this only
affects the magnitude stored, never NaN-ness. -/
def jsUnsigned (l : List Char) (neg : Bool) : JsNum :=
  if l = "Infinity".toList then (if neg then .negInf else .posInf)
  else
    match parseDecimalChars l with
    | some q => .val (if neg then -q else q)
    | none => .nan

/-- Model of JS `Number(string)`: trims whitespace, empty means `0`,
then an optionally signed decimal literal, `Infinity`, or an unsigned
radix literal (`0x`, `0o`, `0b`). Anything else is `NaN`. -/
def jsToNumber (s : String) : JsNum :=
  let t := jsTrim s
  if t = "" then .val 0
  else
    match t.toList with
    | '+' :: r => jsUnsigned r false
    | '-' :: r => jsUnsigned r true
    | '0' :: c :: r =>
      if c = 'x' ∨ c = 'X' then (parseRadix isHexDigit 16 hexDigitVal r).elim .nan .val
      else if c = 'o' ∨ c = 'O' then
        (parseRadix (fun d => '0' ≤ d && d ≤ '7') 8 digitVal r).elim .nan .val
      else if c = 'b' ∨ c = 'B' then
        (parseRadix (fun d => d = '0' || d = '1') 2 digitVal r).elim .nan .val
      else jsUnsigned ('0' :: c :: r) false
    | r => jsUnsigned r false

/-! ### TypeValidators (`isValidNumber`, `isValidDate`) -/

/-- Characters removed by the source's `/[,$\s]/g` regex. -/
def isNumStripChar (c : Char) : Bool := c = ',' || c = '$' || jsIsWhitespace c

/-- JS `value.replace(/[,$\s]/g, s)` with `s` the empty string. -/
def numStrip (s : String) : String :=
  String.mk (s.toList.filter (fun c => !isNumStripChar c))

/-- Source `isValidNumber`: falsy (empty) input is rejected,
then commas, dollar signs and whitespace are stripped and the result
must be non-empty and convert to a non-NaN number. -/
def isValidNumber (value : String) : Bool :=
  if value = "" then false
  else
    let cleaned := numStrip value
    decide (jsToNumber cleaned ≠ JsNum.nan) && decide (cleaned ≠ "")

/-- Split on a separator into groups that must all be non-empty digit
runs; returns the group lengths (models `^\d{a}sep\d{b}...$` regexes). -/
def sepDigitLens (sep : Char) (l : List Char) : Option (List ℕ) :=
  let parts := splitOnChar sep l
  if parts.all (fun p => !p.isEmpty && p.all Char.isDigit) then
    some (parts.map List.length)
  else none

/-- Test a string against `sep`-separated digit groups whose lengths
must lie in the given (min, max) ranges. -/
def lensMatch (sep : Char) (spec : List (ℕ × ℕ)) (s : String) : Bool :=
  match sepDigitLens sep s.toList with
  | some lens =>
    decide (lens.length = spec.length) &&
      (lens.zip spec).all (fun p => decide (p.2.1 ≤ p.1) && decide (p.1 ≤ p.2.2))
  | none => false

/-- One entry of the source's `DATE_FORMATS` table: a regex (modelled
as a Bool-valued test) and a format name. -/
structure DateFormat where
  pattern : String → Bool
  name : String

/-- The source's ordered `DATE_FORMATS` list (first match wins). -/
def DATE_FORMATS : List DateFormat :=
  [ ⟨lensMatch '-' [(4, 4), (2, 2), (2, 2)], "YYYY-MM-DD (ISO)"⟩,
    ⟨lensMatch '/' [(2, 2), (2, 2), (4, 4)], "MM/DD/YYYY (US)"⟩,
    ⟨lensMatch '-' [(2, 2), (2, 2), (4, 4)], "MM-DD-YYYY"⟩,
    ⟨lensMatch '/' [(4, 4), (2, 2), (2, 2)], "YYYY/MM/DD"⟩,
    ⟨lensMatch '/' [(1, 2), (1, 2), (4, 4)], "M/D/YYYY"⟩,
    ⟨lensMatch '-' [(1, 2), (1, 2), (4, 4)], "M-D-YYYY"⟩,
    ⟨lensMatch '/' [(2, 2), (2, 2), (2, 2)], "MM/DD/YY"⟩,
    ⟨lensMatch '-' [(4, 4), (1, 2), (1, 2)], "YYYY-M-D"⟩,
    ⟨lensMatch '/' [(1, 2), (1, 2), (2, 2)], "M/D/YY"⟩,
    ⟨lensMatch '.' [(2, 2), (2, 2), (4, 4)], "DD.MM.YYYY (European)"⟩,
    ⟨lensMatch '.' [(1, 2), (1, 2), (4, 4)], "D.M.YYYY"⟩ ]

/-- Gregorian leap year. -/
def isLeapYear (y : ℤ) : Bool :=
  (y % 4 = 0 : Bool) && ((y % 100 ≠ 0 : Bool) || (y % 400 = 0 : Bool))

/-- Days in a month. -/
def daysInMonth (y : ℤ) (m : ℕ) : ℕ :=
  if m = 2 then (if isLeapYear y then 29 else 28)
  else if m = 4 ∨ m = 6 ∨ m = 9 ∨ m = 11 then 30 else 31

/-- Numeric parts of a `sep`-separated all-digit string. -/
def numericParts (sep : Char) (l : List Char) : Option (List (List Char)) :=
  let parts := splitOnChar sep l
  if parts.all (fun p => !p.isEmpty && p.all Char.isDigit) then some parts
  else none

/-- Model of `new Date(s).getFullYear()` for the numeric `y/m/d`-shaped
strings the engine feeds to the `Date` constructor; `none` models an
Invalid Date.  A leading 4-digit group is year-month-day, otherwise the
fields are month-day-year with two-digit years windowed into 1950–2049
as in the V8 parser; month and day must denote a real calendar date. -/
def jsDateYear (s : String) : Option ℤ :=
  let l := (jsTrim s).toList
  let sep : Char := if l.any (fun c => c = '/') then '/' else '-'
  match numericParts sep l with
  | some [a, b, c] =>
    let ymd : ℤ × ℕ × ℕ :=
      if a.length = 4 then ((decDigitsVal a : ℤ), decDigitsVal b, decDigitsVal c)
      else
        let yraw := decDigitsVal c
        let y : ℤ :=
          if c.length ≤ 2 then (if yraw < 50 then 2000 + yraw else 1900 + yraw)
          else (yraw : ℤ)
        (y, decDigitsVal a, decDigitsVal b)
    let y := ymd.1
    let m := ymd.2.1
    let d := ymd.2.2
    if 1 ≤ m ∧ m ≤ 12 ∧ 1 ≤ d ∧ d ≤ daysInMonth y m then some y else none
  | _ => none

/-- Result record of `isValidDate` (`{ isValid, detectedFormat? }`). -/
structure DateCheck where
  isValid : Bool
  detectedFormat : Option String
deriving DecidableEq

/-- The year parsed for a matched date format: European dotted formats
are rearranged to `Y-M-D` (`new Date(parts[2]-parts[1]-parts[0])`)
before parsing, every other format is parsed directly. -/
def dateYearFor (trimmedValue : String) (matchedFormat : DateFormat) : Option ℤ :=
  if strIncludes matchedFormat.name "DD.MM.YYYY" ||
      strIncludes matchedFormat.name "D.M.YYYY" then
    match splitOnChar '.' trimmedValue.toList with
    | [p0, p1, p2] =>
      jsDateYear (String.mk (p2 ++ '-' :: p1 ++ '-' :: p0))
    | _ => none
  else jsDateYear trimmedValue

/-- Source `isValidDate`: falsy input rejected, the trimmed
value is tested against `DATE_FORMATS` in order (first match wins),
European dotted formats are rearranged to `Y-M-D` before parsing, and
the parsed year must lie strictly between 1900 and 2100. -/
def isValidDate (value : String) : DateCheck :=
  if value = "" then ⟨false, none⟩
  else
    let trimmedValue := jsTrim value
    match DATE_FORMATS.find? (fun f => f.pattern trimmedValue) with
    | none => ⟨false, none⟩
    | some matchedFormat =>
      match dateYearFor trimmedValue matchedFormat with
      | some y =>
        if 1900 < y ∧ y < 2100 then ⟨true, some matchedFormat.name⟩
        else ⟨false, none⟩
      | none => ⟨false, none⟩

/-! ### OutlierDetector -/

/-- The `forEach`-push loop of `detectOutliers`: collect the values
outside the bounds together with their original indices (starting at
`i`), in order. -/
def collectOutliers (lowerBound upperBound : ℚ) : ℕ → List ℚ → List ℚ × List ℕ
  | _, [] => ([], [])
  | i, v :: rest =>
    let p := collectOutliers lowerBound upperBound (i + 1) rest
    if v < lowerBound ∨ v > upperBound then (v :: p.1, i :: p.2) else p

/-- Ascending JS numeric sort `[...values].sort((a, b) => a - b)`.
Modelled by insertion sort: for a list of rationals any correct sort
produces the same (unique) sorted permutation. -/
def sortAsc (values : List ℚ) : List ℚ :=
  values.insertionSort (· ≤ ·)

/-- Source `detectOutliers`: fewer than 4 values yields no
outliers; otherwise Q1/Q3 are the sorted values at indices
`floor(n·0.25)` / `floor(n·0.75)` and anything outside
`[Q1 − 1.5·IQR, Q3 + 1.5·IQR]` is collected with its pre-sort index. -/
def detectOutliers (values : List ℚ) : List ℚ × List ℕ :=
  if values.length < 4 then ([], [])
  else
    let sorted := sortAsc values
    let q1 := sorted.getD (sorted.length * 25 / 100) 0
    let q3 := sorted.getD (sorted.length * 75 / 100) 0
    let iqr := q3 - q1
    let lowerBound := q1 - (1.5 : ℚ) * iqr
    let upperBound := q3 + (1.5 : ℚ) * iqr
    collectOutliers lowerBound upperBound 0 values

/-! ### FieldMatcher -/

/-- JS `header.toLowerCase().replace(/[^a-z0-9]/g, s)` with `s` empty. -/
def normalizeHeader (s : String) : String :=
  String.mk ((jsToLower s).toList.filter (fun c => c.isLower || c.isDigit))

/-- The static alias table of `findBestFieldMatch`.  Note that the
lookup key is the candidate field lower-cased, while the table keys are
camelCase, so in the source these entries are in fact unreachable; the
lookup is modelled exactly as written. -/
def variations : List (String × List String) :=
  [ ("customerName", ["customer", "client", "buyer"]),
    ("invoiceId", ["invoice", "id", "number"]),
    ("qty", ["quantity", "amount", "count"]),
    ("unitPrice", ["price", "rate", "cost"]),
    ("saleDate", ["date", "timestamp", "time"]) ]

/-- Source `findBestFieldMatch`: first candidate winning by
normalized equality, normalized substring containment either way, or an
alias-table hit. -/
def findBestFieldMatch (csvHeader : String) (requiredFields : List String) : Option String :=
  let normalizedCsvHeader := normalizeHeader csvHeader
  requiredFields.find? (fun field =>
    let normalizedField := normalizeHeader field
    if normalizedCsvHeader = normalizedField then true
    else if strIncludes normalizedCsvHeader normalizedField ||
        strIncludes normalizedField normalizedCsvHeader then true
    else
      let fieldKey := jsToLower (String.mk (field.toList.filter (fun c => !jsIsWhitespace c)))
      match variations.lookup fieldKey with
      | some vs => vs.any (fun variation => strIncludes normalizedCsvHeader variation)
      | none => false)

/-! ### Data model of the engine -/

/-- A parsed CSV row: ordered association list header ↦ raw cell. -/
abbrev Row := List (String × String)

/-- JS `Object.keys` of the first row (the dataset headers). -/
def headersOf (data : List Row) : List String :=
  match data with
  | [] => []
  | r :: _ => r.map Prod.fst

/-- Error severity. -/
inductive Severity where
  | error : Severity
  | warning : Severity
  | info : Severity
deriving DecidableEq

/-- The error kinds exercised by the generic engine. -/
inductive ErrType where
  | MISSING_FIELD : ErrType
  | TYPE_MISMATCH : ErrType
  | FORMAT_ERROR : ErrType
  | EMPTY_VALUE : ErrType
  | OUTLIER : ErrType
  | EXTRA_FIELD : ErrType
deriving DecidableEq

/-- The `ValidationError` record. -/
structure ValidationError where
  field : String
  message : String
  type : ErrType
  row : Option ℕ
  column : Option String
  severity : Severity
deriving DecidableEq

/-- The `ValidationSummary` record. -/
structure ValidationSummary where
  totalRows : ℕ
  totalFields : ℕ
  schemaUsed : String
  validRows : ℕ
  errorRows : ℕ
  warningCount : ℕ
  emptyValuePercentage : ℚ
  dataQualityScore : ℚ
deriving DecidableEq

/-- The three fallback layers. -/
inductive FallbackLevel where
  | industry : FallbackLevel
  | dynamic : FallbackLevel
  | allPurpose : FallbackLevel
deriving DecidableEq

/-- String rendering of a fallback level (as in the template literal
building `fallbackMessage`). -/
def FallbackLevel.asString : FallbackLevel → String
  | .industry => "industry"
  | .dynamic => "dynamic"
  | .allPurpose => "all-purpose"

/-- The `ValidationResult` record. -/
structure ValidationResult where
  isValid : Bool
  errors : List ValidationError
  warnings : List ValidationError
  summary : ValidationSummary
  aiSuggestions : Option (List String)
  fallbackLevel : Option FallbackLevel
  fallbackMessage : Option String
  insights : Option (List String)
deriving DecidableEq

/-- A schema: required and optional field names plus a field → type
table (types are the strings `"number"`, `"date"`, `"string"`). -/
structure Schema where
  required : List String
  optional : List String
  types : List (String × String)
deriving DecidableEq

/-! ### TypeInferencer -/

/-- Source `inferDataTypes`: for each header take the cells of
the first `min(100, length)` rows, keep the truthy ones with non-blank
trim, and infer `number` when strictly more than 80% satisfy
`isValidNumber`, else `date` when strictly more than 60% satisfy
`isValidDate`, else `string` (also when no values survive). -/
def inferDataTypes (data : List Row) (headers : List String) : List (String × String) :=
  headers.map (fun header =>
    let values := (data.take (min 100 data.length)).filterMap (fun row =>
      match row.lookup header with
      | some v => if v ≠ "" ∧ jsTrim v ≠ "" then some v else none
      | none => none)
    if values.length = 0 then (header, "string")
    else
      let numberCount := (values.filter (fun v => isValidNumber v)).length
      let dateCount := (values.filter (fun v => (isValidDate v).isValid)).length
      let numberPercentage : ℚ := (numberCount : ℚ) / (values.length : ℚ)
      let datePercentage : ℚ := (dateCount : ℚ) / (values.length : ℚ)
      if numberPercentage > (0.8 : ℚ) then (header, "number")
      else if datePercentage > (0.6 : ℚ) then (header, "date")
      else (header, "string"))

/-- The type inference exactly as the claim words it, for comparison
with the source's `inferDataTypes`: sample up to the first 100
non-empty values of the whole column and use inclusive (≥ 80% / ≥ 60%)
thresholds. -/
def inferDataTypesClaim (data : List Row) (headers : List String) : List (String × String) :=
  headers.map (fun header =>
    let sample := (data.filterMap (fun row =>
      (row.lookup header).bind (fun v => if jsTrim v = "" then none else some v))).take 100
    if sample.isEmpty then (header, "string")
    else if (((sample.filter (fun v => isValidNumber v)).length : ℚ) / (sample.length : ℚ)) ≥ (0.8 : ℚ) then
      (header, "number")
    else if (((sample.filter (fun v => (isValidDate v).isValid)).length : ℚ) / (sample.length : ℚ)) ≥ (0.6 : ℚ) then
      (header, "date")
    else (header, "string"))

/-- The amended claim for the type inference: the sample is the
non-empty values among the first 100 rows, and the thresholds are
strict (more than 80% / more than 60% of the sample, phrased here by
cross-multiplication). -/
def inferDataTypesAmended (data : List Row) (headers : List String) : List (String × String) :=
  headers.map (fun header =>
    let sample := (data.take 100).filterMap (fun row =>
      (row.lookup header).bind (fun v => if jsTrim v = "" then none else some v))
    if sample.isEmpty then (header, "string")
    else if 5 * (sample.filter (fun v => isValidNumber v)).length > 4 * sample.length then
      (header, "number")
    else if 5 * (sample.filter (fun v => (isValidDate v).isValid)).length > 3 * sample.length then
      (header, "date")
    else (header, "string"))

/-- The numeric validity test exactly as the claim words it, for
comparison with the source's `isValidNumber`: the stripped string must
be non-empty and parse to a *finite* number. -/
def isValidNumberClaim (value : String) : Bool :=
  decide (numStrip value ≠ "") &&
    (match jsToNumber (numStrip value) with
     | JsNum.val _ => true
     | _ => false)

/-! ### RowValidator (`runValidation`), stage 1: required headers -/

/-- Accumulator of the missing-required-header loop. -/
structure HeaderScan where
  missingHeaders : List String
  mappedHeaders : List (String × String)
  errors : List ValidationError
  aiSuggestions : List String
deriving DecidableEq

/-- The `MISSING_FIELD` error pushed for an unmatched required field. -/
def missingFieldError (requiredField : String) : ValidationError :=
  { field := requiredField
    message := s!"Required field \"{requiredField}\" is missing from your CSV headers"
    type := .MISSING_FIELD
    row := none
    column := none
    severity := .error }

/-- One iteration of the required-field loop: either record the mapping
found by `findBestFieldMatch`, or record the field as missing, push a
`MISSING_FIELD` error and possibly an AI mapping suggestion. -/
def headerStep (headers : List String) (st : HeaderScan) (requiredField : String) : HeaderScan :=
  match findBestFieldMatch requiredField headers with
  | some matchedHeader =>
    { st with mappedHeaders := st.mappedHeaders ++ [(requiredField, matchedHeader)] }
  | none =>
    let firstWord := String.mk ((splitOnChar ' ' (jsToLower requiredField).toList).headD [])
    let suggestions := headers.filter (fun h => strIncludes (jsToLower h) firstWord)
    let sugg :=
      match suggestions with
      | [] => st.aiSuggestions
      | s0 :: _ => st.aiSuggestions ++ [s!"Consider mapping \"{s0}\" to \"{requiredField}\""]
    { st with
        missingHeaders := st.missingHeaders ++ [requiredField]
        errors := st.errors ++ [missingFieldError requiredField]
        aiSuggestions := sugg }

/-- Stage 1 of `runValidation`: for a named schema run the required
field loop; for the all-purpose layer skip it and map every header to
itself. -/
def headerScan (headers : List String) (schema : Schema)
    (fallbackLevel : Option FallbackLevel) : HeaderScan :=
  if fallbackLevel ≠ some .allPurpose then
    schema.required.foldl (headerStep headers) ⟨[], [], [], []⟩
  else
    ⟨[], headers.map (fun h => (h, h)), [], []⟩

/-! ### Stage 2: extra unexpected fields -/

/-- The `EXTRA_FIELD` warning pushed for an unexpected header. -/
def extraFieldWarning (field : String) : ValidationError :=
  { field := field
    message := s!"Unexpected field \"{field}\" found - it will be ignored during analysis"
    type := .EXTRA_FIELD
    row := none
    column := none
    severity := .warning }

/-- Stage 2 of `runValidation`: headers that `findBestFieldMatch`
cannot align with any required or optional field become `EXTRA_FIELD`
warnings; skipped entirely for the all-purpose layer. -/
def extraFieldWarnings (headers : List String) (schema : Schema)
    (fallbackLevel : Option FallbackLevel) : List ValidationError :=
  if fallbackLevel ≠ some .allPurpose then
    let expectedFields := schema.required ++ schema.optional
    (headers.filter (fun header =>
      !(expectedFields.any (fun expected => (findBestFieldMatch header [expected]).isSome)))).map
      extraFieldWarning
  else []

/-! ### Stage 3: per-cell scan -/

/-- Accumulator shared by all cells of the data scan. -/
structure CellAcc where
  totalEmptyValues : ℕ
  totalValues : ℕ
  numericValues : List (String × List ℚ × List ℕ)
  errors : List ValidationError
  warnings : List ValidationError
deriving DecidableEq

/-- State of the whole data scan: the per-cell accumulator plus the
row counters, which are only touched between rows. -/
structure ScanState where
  validRows : ℕ
  errorRows : ℕ
  acc : CellAcc
deriving DecidableEq

/-- The `EMPTY_VALUE` warning pushed for a blank cell. -/
def emptyValueWarning (header : String) (rowIndex : ℕ) : ValidationError :=
  { field := header
    message := "Empty value found"
    type := .EMPTY_VALUE
    row := some (rowIndex + 1)
    column := some header
    severity := .warning }

/-- The `TYPE_MISMATCH` error pushed for an invalid number cell. -/
def typeMismatchError (header value : String) (rowIndex : ℕ) (severity : Severity) :
    ValidationError :=
  let rowNum := rowIndex + 1
  { field := header
    message := s!"Invalid number format: \"{value}\" at row {rowNum}"
    type := .TYPE_MISMATCH
    row := some rowNum
    column := some header
    severity := severity }

/-- The `FORMAT_ERROR` error pushed for an invalid date cell. -/
def dateFormatError (header value : String) (rowIndex : ℕ) (severity : Severity) :
    ValidationError :=
  let rowNum := rowIndex + 1
  { field := header
    message := s!"Invalid date format: \"{value}\" at row {rowNum}. Supported formats: YYYY-MM-DD, MM/DD/YYYY, DD.MM.YYYY, etc."
    type := .FORMAT_ERROR
    row := some rowNum
    column := some header
    severity := severity }

/-- Magnitude of a non-NaN JS number.  The engine only stores values of
cells that passed `isValidNumber`, which are finite except for cells
spelling `Infinity` (or overflowing literals, already kept exact by
`jsToNumber`); the infinite magnitudes are idealised to `0` here, which
no claim depends on. -/
def jsNumToQ : JsNum → ℚ
  | .val q => q
  | _ => 0

/-- Append a numeric cell value to the per-header outlier buffer,
creating the buffer on first use (insertion order preserved). -/
def pushNumeric (nv : List (String × List ℚ × List ℕ)) (header : String) (v : ℚ)
    (rowNum : ℕ) : List (String × List ℚ × List ℕ) :=
  if nv.any (fun e => e.1 = header) then
    nv.map (fun e =>
      if e.1 = header then (e.1, e.2.1 ++ [v], e.2.2 ++ [rowNum]) else e)
  else nv ++ [(header, [v], [rowNum])]

/-- One cell of the scan: count the cell, handle blanks, then check the
cell against the expected type resolved through the header mapping.
The boolean component is the row's `rowHasErrors` flag. -/
def processCell (types : List (String × String)) (mappedHeaders : List (String × String))
    (fallbackLevel : Option FallbackLevel) (rowIndex : ℕ)
    (st : CellAcc × Bool) (cell : String × String) : CellAcc × Bool :=
  let header := cell.1
  let value := cell.2
  let acc := { st.1 with totalValues := st.1.totalValues + 1 }
  let rowHasErrors := st.2
  if value = "" ∨ jsTrim value = "" then
    ({ acc with
        totalEmptyValues := acc.totalEmptyValues + 1
        warnings := acc.warnings ++ [emptyValueWarning header rowIndex] }, rowHasErrors)
  else
    let mappedField := (mappedHeaders.find? (fun p => p.2 = header)).map Prod.fst
    let expectedType := mappedField.bind (fun f => types.lookup f)
    match expectedType with
    | some "number" =>
      if !isValidNumber value then
        let severity := if fallbackLevel = some .allPurpose then Severity.warning else .error
        ({ acc with errors := acc.errors ++ [typeMismatchError header value rowIndex severity] },
          rowHasErrors || decide (fallbackLevel ≠ some .allPurpose))
      else
        let numValue := jsNumToQ (jsToNumber (numStrip value))
        ({ acc with numericValues := pushNumeric acc.numericValues header numValue (rowIndex + 1) },
          rowHasErrors)
    | some "date" =>
      if !(isValidDate value).isValid then
        let severity := if fallbackLevel = some .allPurpose then Severity.warning else .error
        ({ acc with errors := acc.errors ++ [dateFormatError header value rowIndex severity] },
          rowHasErrors || decide (fallbackLevel ≠ some .allPurpose))
      else
        -- a valid date only feeds the (unused) detected-format set
        (acc, rowHasErrors)
    | _ => (acc, rowHasErrors)

/-- One row of the scan: fold the cells, then count the row as an error
row or a valid row according to the `rowHasErrors` flag. -/
def processRow (types mappedHeaders : List (String × String))
    (fallbackLevel : Option FallbackLevel) (st : ScanState) (rowIndex : ℕ) (row : Row) :
    ScanState :=
  let p := row.foldl (processCell types mappedHeaders fallbackLevel rowIndex) (st.acc, false)
  if p.2 then { validRows := st.validRows, errorRows := st.errorRows + 1, acc := p.1 }
  else { validRows := st.validRows + 1, errorRows := st.errorRows, acc := p.1 }

/-- The `data.forEach((row, rowIndex) => ...)` loop. -/
def scanRows (types mappedHeaders : List (String × String))
    (fallbackLevel : Option FallbackLevel) : ℕ → List Row → ScanState → ScanState
  | _, [], st => st
  | i, row :: rest, st =>
    scanRows types mappedHeaders fallbackLevel (i + 1) rest
      (processRow types mappedHeaders fallbackLevel st i row)

/-- Stage 3 of `runValidation`: scan all rows starting from the empty
state. -/
def scanData (data : List Row) (types mappedHeaders : List (String × String))
    (fallbackLevel : Option FallbackLevel) : ScanState :=
  scanRows types mappedHeaders fallbackLevel 0 data ⟨0, 0, ⟨0, 0, [], [], []⟩⟩

/-! ### Stage 4: outlier warnings -/

/-- Stage 4 of `runValidation`: one aggregated `OUTLIER` warning per
numeric column that has outliers, listing the affected 1-based rows. -/
def outlierWarnings (numericValues : List (String × List ℚ × List ℕ)) :
    List ValidationError :=
  numericValues.filterMap (fun e =>
    let header := e.1
    let p := detectOutliers e.2.1
    if p.1.length > 0 then
      let outlierRows := p.2.map (fun i => e.2.2.getD i 0)
      let rowsStr := String.intercalate ", " (outlierRows.map toString)
      let cnt := p.1.length
      some { field := header
             message := s!"{cnt} potential outliers detected in {header} (rows: {rowsStr})"
             type := .OUTLIER
             row := none
             column := none
             severity := .warning }
    else none)

/-! ### Stage 5: metrics and structural-collapse check -/

/-- JS `Math.round(x * 100) / 100` (round half towards positive
infinity, as `Math.round` does). -/
def round2 (x : ℚ) : ℚ := ((round (x * 100) : ℤ) : ℚ) / 100

/-- The quality score formula of the source (before rounding):
`Math.max(0, 100 - errors.length * 10 - warnings.length * 2 - emptyValuePercentage)`. -/
def dataQualityScoreRaw (errorCount warningCount : ℕ) (emptyValuePercentage : ℚ) : ℚ :=
  max 0 (100 - (errorCount : ℚ) * 10 - (warningCount : ℚ) * 2 - emptyValuePercentage)

/-- The `FORMAT_ERROR` appended when the structure looks collapsed. -/
def structuralError : ValidationError :=
  { field := "Structure"
    message := "Unclear file structure detected - consider trying a different industry schema or use All-Purpose format"
    type := .FORMAT_ERROR
    row := none
    column := none
    severity := .error }

/-- Stage 6 of `runValidation`: for named schemas, count the
`MISSING_FIELD` and `TYPE_MISMATCH` errors and append one structural
`FORMAT_ERROR` when they exceed half of
`required.length + rows × typedFieldCount`. -/
def structuralAppend (errors : List ValidationError) (schema : Schema) (rows : ℕ)
    (fallbackLevel : Option FallbackLevel) : List ValidationError :=
  if fallbackLevel ≠ some .allPurpose then
    let structuralIssues :=
      (errors.filter (fun e => e.type = .MISSING_FIELD ∨ e.type = .TYPE_MISMATCH)).length
    let totalStructuralChecks := schema.required.length + rows * schema.types.length
    if (structuralIssues : ℚ) > (totalStructuralChecks : ℚ) * (0.5 : ℚ) then [structuralError]
    else []
  else []

/-! ### Insight text generation -/

/-- JS `x.toFixed(1)` for a non-negative rational. -/
def toFixed1 (q : ℚ) : String :=
  let n : ℤ := round (q * 10)
  let ip := n / 10
  let fr := n % 10
  s!"{ip}.{fr}"

/-- The general data-quality observations (completeness, quality tier,
dataset-size tier, field-count tier) built before the industry
detection. -/
def generalInsights (emptyValuePercentage dataQualityScore : ℚ) (rows fields : ℕ) :
    List String :=
  (if emptyValuePercentage > 0 then
    let pct := toFixed1 (100 - emptyValuePercentage)
    [s!"Data completeness: {pct}% of fields have values"]
  else []) ++
  [ if dataQualityScore ≥ 90 then
      "Excellent data quality score - your data is well-structured and clean"
    else if dataQualityScore ≥ 70 then
      "Good data quality score - minor improvements could enhance analysis accuracy"
    else if dataQualityScore ≥ 50 then
      "Moderate data quality score - consider reviewing data structure and values"
    else
      "Low data quality score - significant data issues detected, review recommended" ] ++
  [ if rows ≥ 1000 then
      "Large dataset detected - sufficient for robust statistical analysis"
    else if rows ≥ 100 then
      "Medium dataset size - good for trend analysis and insights"
    else if rows ≥ 10 then
      "Small dataset size - suitable for basic analysis and validation"
    else
      "Very small dataset - consider collecting more data for meaningful insights" ] ++
  [ if fields ≥ 20 then
      "Rich data structure with many fields - comprehensive analysis possible"
    else if fields ≥ 10 then
      "Good field coverage - balanced analysis capabilities"
    else if fields ≥ 5 then
      "Moderate field count - focused analysis approach"
    else
      "Limited fields - consider adding more relevant columns for deeper insights" ]

/-- Pharmaceutical header keywords (a single header must contain at
least 3 of them). -/
def pharmaKeywords : List String :=
  ["drug", "batch", "therapeutic", "expiry", "dosage", "prescription", "manufacturer",
   "mrp", "cost_price", "selling_price", "stock_quantity", "hsn_code", "gst_rate",
   "regulatory", "controlled_substance", "storage_temperature", "shelf_life",
   "generic_name", "strength", "packaging"]

/-- Healthcare header keywords. -/
def healthcareKeywords : List String :=
  ["patient", "doctor", "diagnosis", "treatment", "admission", "discharge", "department",
   "room_type", "bill_amount", "insurance", "medical", "hospital", "clinic", "surgery",
   "medication", "symptom", "vital", "lab_result", "procedure", "specialty"]

/-- Accounting header keywords. -/
def accountingKeywords : List String :=
  ["transaction", "client", "invoice", "payment", "tax", "discount", "amount", "branch",
   "service", "cheque", "bank", "pan", "gst", "ifsc", "contract", "prepared", "reviewed",
   "approved", "due_date", "payment_status", "payment_mode"]

/-- Retail header keywords. -/
def retailKeywords : List String :=
  ["store", "product", "category", "sku", "barcode", "channel", "inventory", "fulfillment",
   "loyalty", "brand", "variant", "collection", "promo", "campaign", "return", "refund",
   "warehouse", "shipment", "carrier", "sales_associate"]

/-- Finance header keywords used by the insight detection. -/
def financeKeywords : List String :=
  ["account", "transaction", "debit", "credit", "balance", "reconciliation", "approval",
   "vendor", "gl_code", "cost_center", "profit_center", "department", "project", "audit",
   "compliance", "tax", "interest", "service_charge", "opening_balance", "closing_balance",
   "amount", "currency", "category", "subcategory", "description", "reference", "check",
   "invoice", "due_date", "posted_date", "cleared_date", "audit_trail", "status"]

/-- A header contains at least 3 distinct pharma keywords. -/
def hasPharmaFields (headers : List String) : Bool :=
  headers.any (fun header =>
    (pharmaKeywords.filter (fun k => strIncludes (jsToLower header) k)).length ≥ 3)

/-- Some header contains a healthcare keyword. -/
def hasHealthcareFields (headers : List String) : Bool :=
  headers.any (fun header => healthcareKeywords.any (fun k => strIncludes (jsToLower header) k))

/-- Some header contains an accounting keyword. -/
def hasAccountingFields (headers : List String) : Bool :=
  headers.any (fun header => accountingKeywords.any (fun k => strIncludes (jsToLower header) k))

/-- Some header contains a retail keyword. -/
def hasRetailFields (headers : List String) : Bool :=
  headers.any (fun header => retailKeywords.any (fun k => strIncludes (jsToLower header) k))

/-- At least 2 headers contain finance keywords. -/
def hasFinanceFields (headers : List String) : Bool :=
  (headers.filter (fun header =>
    financeKeywords.any (fun k => strIncludes (jsToLower header) k))).length ≥ 2

/-- Fallback insight block for retail-looking datasets. -/
def retailBasicInsights : List String :=
  [ "Retail dataset detected - analyzing store performance and product trends",
    "Product categories and inventory levels being evaluated",
    "Customer behavior and payment patterns analyzed",
    "Channel performance and store analytics in progress",
    "Sales trends and revenue analysis completed",
    "Inventory optimization recommendations generated" ]

/-- Fallback insight block for accounting-looking datasets. -/
def accountingBasicInsights : List String :=
  [ "Accounting dataset detected - analyzing financial transactions",
    "Client revenue and payment patterns evaluated",
    "Tax collection and discount analysis completed",
    "Branch performance and service type analysis done",
    "Payment efficiency and overdue tracking active",
    "Financial performance insights generated" ]

/-- Fallback insight block for finance-looking datasets. -/
def financeBasicInsights : List String :=
  [ "Finance dataset detected - analyzing account performance and transactions",
    "Account balance and cash flow patterns evaluated",
    "Transaction type and category analysis completed",
    "Vendor performance and reconciliation tracking done",
    "Financial risk assessment and compliance monitoring active",
    "Financial performance insights generated" ]

/-- The final insight selection of `runValidation`: industry-specific
rule runners are disabled in the source (`industryInsights = []`), so a
detected industry signature yields one of the canned blocks (retail,
then accounting, then finance, else nothing), otherwise the general
observations; the list is capped at 6 entries. -/
def insightsList (headers : List String) (general : List String) : List String :=
  let industryInsights : List String := []
  let finalInsights :=
    if hasPharmaFields headers || hasHealthcareFields headers || hasAccountingFields headers ||
        hasRetailFields headers || hasFinanceFields headers then
      if industryInsights.isEmpty then
        if hasRetailFields headers then retailBasicInsights
        else if hasAccountingFields headers then accountingBasicInsights
        else if hasFinanceFields headers then financeBasicInsights
        else industryInsights
      else industryInsights
    else general ++ industryInsights
  finalInsights.take 6

/-! ### `runValidation` assembly -/

/-- The empty-value percentage as computed at the metrics step (before
rounding): `totalValues > 0 ? (totalEmptyValues / totalValues) * 100 : 0`. -/
def emptyValuePercentageOf (acc : CellAcc) : ℚ :=
  if acc.totalValues > 0 then (acc.totalEmptyValues : ℚ) / (acc.totalValues : ℚ) * 100
  else 0

/-- The error list of `runValidation` before the structural-collapse
check (missing-header errors followed by per-cell errors, in push
order). -/
def preErrors (data : List Row) (schema : Schema) (fallbackLevel : Option FallbackLevel) :
    List ValidationError :=
  let headers := headersOf data
  let hs := headerScan headers schema fallbackLevel
  hs.errors ++ (scanData data schema.types hs.mappedHeaders fallbackLevel).acc.errors

/-- The warning list of `runValidation` (extra-field, then empty-value,
then outlier warnings, in push order). -/
def allWarnings (data : List Row) (schema : Schema) (fallbackLevel : Option FallbackLevel) :
    List ValidationError :=
  let headers := headersOf data
  let hs := headerScan headers schema fallbackLevel
  let scan := scanData data schema.types hs.mappedHeaders fallbackLevel
  extraFieldWarnings headers schema fallbackLevel ++ scan.acc.warnings ++
    outlierWarnings scan.acc.numericValues

/-- Source `runValidation`, assembled from the stages above in
the source's execution order.  `isValid` and the quality score are
computed before the structural-collapse check appends its error. -/
def runValidation (data : List Row) (schema : Schema) (schemaName : String)
    (fallbackLevel : Option FallbackLevel) : ValidationResult :=
  let headers := headersOf data
  let hs := headerScan headers schema fallbackLevel
  let scan := scanData data schema.types hs.mappedHeaders fallbackLevel
  let errors1 := preErrors data schema fallbackLevel
  let warnings := allWarnings data schema fallbackLevel
  let emptyValuePercentage := emptyValuePercentageOf scan.acc
  let dataQualityScore := dataQualityScoreRaw errors1.length warnings.length emptyValuePercentage
  let isValid := errors1.isEmpty && hs.missingHeaders.isEmpty
  let errors := errors1 ++ structuralAppend errors1 schema data.length fallbackLevel
  { isValid := isValid
    errors := errors
    warnings := warnings
    summary :=
      { totalRows := data.length
        totalFields := headers.length
        schemaUsed := schemaName
        validRows := scan.validRows
        errorRows := scan.errorRows
        warningCount := warnings.length
        emptyValuePercentage := round2 emptyValuePercentage
        dataQualityScore := round2 dataQualityScore }
    aiSuggestions := if hs.aiSuggestions.length > 0 then some hs.aiSuggestions else none
    fallbackLevel := fallbackLevel
    fallbackMessage := fallbackLevel.map (fun fl =>
      let fls := fl.asString
      s!"We applied {fls} format due to column mismatch.")
    insights := some (insightsList headers
      (generalInsights emptyValuePercentage dataQualityScore data.length headers.length)) }

/-! ### SchemaRegistry -/

/-- The hand-authored doctor-roster schema (`schemas/doctor-roster.ts`). -/
def DOCTOR_ROSTER_SCHEMA : Schema :=
  { required := ["Doctor_ID", "Doctor_Name", "Specialization", "Department", "Date",
                 "Shift", "Start_Time", "End_Time"]
    optional := ["Location", "Room_No", "On_Call", "Contact", "Email",
                 "Max_Appointments", "Notes"]
    types := [("Doctor_ID", "string"), ("Doctor_Name", "string"), ("Specialization", "string"),
              ("Department", "string"), ("Date", "date"), ("Shift", "string"),
              ("Start_Time", "string"), ("End_Time", "string"), ("Location", "string"),
              ("Room_No", "string"), ("On_Call", "string"), ("Contact", "string"),
              ("Email", "string"), ("Max_Appointments", "number"), ("Notes", "string")] }

/-- Modelled from the spec: the hand-authored OP-billing industry schema
(`schemas/opbilling.ts` is imported by the engine but absent from the
sources; the spec describes industry schemas only as fixed tables of
required/optional fields with a type map, and no claim depends on this
table's contents).  Field names follow the repository's CSV column
guide for OP billing. -/
def OPBILLING_SCHEMA : Schema :=
  { required := ["Patient_ID", "Patient_Name", "Doctor_Name", "Visit_Date", "Total_Amount"]
    optional := ["Doctor_ID", "Procedure_Code"]
    types := [("Patient_ID", "string"), ("Patient_Name", "string"), ("Doctor_Name", "string"),
              ("Visit_Date", "date"), ("Total_Amount", "number"), ("Doctor_ID", "string"),
              ("Procedure_Code", "string")] }

/-- The generic zero-requirement schema (`SCHEMA_REQUIREMENTS.others`). -/
def OTHERS_SCHEMA : Schema := { required := [], optional := [], types := [] }

/-- JS `SCHEMA_REQUIREMENTS[industry] || SCHEMA_REQUIREMENTS.others`.
JS property lookup on names inherited from `Object.prototype` (such as
`"constructor"`) would make the original crash later; those pathological
industries are mapped to the generic schema here and never occur in the
claims. -/
def schemaFor (industry : String) : Schema :=
  if industry = "doctor_roster" then DOCTOR_ROSTER_SCHEMA
  else if industry = "opbilling" then OPBILLING_SCHEMA
  else OTHERS_SCHEMA

/-! ### FallbackOrchestrator (`validateCSVData`) -/

/-- The short-circuit result for an empty dataset. -/
def emptyDataResult : ValidationResult :=
  { isValid := false
    errors := [{ field := "File", message := "No data found in CSV file",
                 type := .FORMAT_ERROR, row := none, column := none, severity := .error }]
    warnings := []
    summary := { totalRows := 0, totalFields := 0, schemaUsed := "None", validRows := 0,
                 errorRows := 0, warningCount := 0, emptyValuePercentage := 0,
                 dataQualityScore := 0 }
    aiSuggestions := none
    fallbackLevel := none
    fallbackMessage := none
    insights := none }

/-- The finance header keywords of the orchestrator's special case. -/
def financeHeaderKeywords : List String :=
  ["account", "transaction", "debit", "credit", "balance", "amount", "currency",
   "category", "vendor", "tax", "reconciliation", "approval"]

/-- Some header contains one of the orchestrator's finance keywords. -/
def anyFinanceHeader (headers : List String) : Bool :=
  headers.any (fun header =>
    financeHeaderKeywords.any (fun k => strIncludes (jsToLower header) k))

/-- JS `industry.charAt(0).toUpperCase() + industry.slice(1)`. -/
def capitalizeFirst (s : String) : String :=
  match s.toList with
  | [] => ""
  | c :: r => String.mk (upperChar c :: r)

/-- The Layer-2 dynamic schema detector: a stub in the source, it
always reports no detection. -/
def detectDynamicSchema (_headers : List String) : Option (Schema × ℚ × String) := none

/-- Layers 1–3 of the orchestrator (the code after the finance special
case): run the industry schema, return on success or for the generic
industry, tolerate few structural errors, otherwise try the (stubbed)
dynamic detection and finally the all-purpose schema built from
inferred types. -/
def validateLayers (data : List Row) (headers : List String) (selectedSchema : Schema)
    (industry : String) : ValidationResult :=
  let schemaName := if industry = "others" then "Generic" else capitalizeFirst industry
  let industryResult := runValidation data selectedSchema schemaName (some .industry)
  if industryResult.isValid || industry = "others" then industryResult
  else
    let structuralErrors :=
      (industryResult.errors.filter (fun e =>
        e.type = .MISSING_FIELD ∨ e.type = .TYPE_MISMATCH ∨ e.type = .FORMAT_ERROR)).length
    if (structuralErrors : ℚ) > (selectedSchema.required.length : ℚ) * (0.5 : ℚ) then
      let allPurposeRun :=
        let inferredTypes := inferDataTypes data headers
        let allPurposeSchema : Schema := { required := [], optional := [], types := inferredTypes }
        runValidation data allPurposeSchema "All-Purpose (Fallback)" (some .allPurpose)
      match detectDynamicSchema headers with
      | some d =>
        if d.2.1 > (0.6 : ℚ) then
          let dynName := capitalizeFirst d.2.2 ++ " (Auto-detected)"
          let dynamicResult := runValidation data d.1 dynName (some .dynamic)
          if dynamicResult.isValid ||
              (dynamicResult.errors.filter (fun e => e.severity = .error)).length <
                (industryResult.errors.filter (fun e => e.severity = .error)).length then
            dynamicResult
          else allPurposeRun
        else allPurposeRun
      | none => allPurposeRun
    else industryResult

/-- Source `validateCSVData`: empty-data short circuit, the
finance special case (overwriting `aiSuggestions` and returning the
Layer-1 result), then the three-layer strategy. -/
def validateCSVData (data : List Row) (industry : String) : ValidationResult :=
  if data.isEmpty then emptyDataResult
  else
    let headers := headersOf data
    let selectedSchema := schemaFor industry
    if strIncludes (jsToLower industry) "finance" && anyFinanceHeader headers then
      let financeResult := runValidation data selectedSchema "Finance" (some .industry)
      { financeResult with
          aiSuggestions := some ["Finance dataset detected - using specialized financial analysis"] }
    else validateLayers data headers selectedSchema industry

/-! ## Helper lemmas -/

/-- The result of `runValidation` copies the `fallbackLevel` argument. -/
theorem runValidation_fallbackLevel (data : List Row) (schema : Schema) (name : String)
    (fb : Option FallbackLevel) : (runValidation data schema name fb).fallbackLevel = fb := rfl

/-- Each row is counted exactly once, as valid or as an error row. -/
theorem processRow_rowCount (t m : List (String × String)) (fb : Option FallbackLevel)
    (st : ScanState) (i : ℕ) (row : Row) :
    (processRow t m fb st i row).validRows + (processRow t m fb st i row).errorRows =
      st.validRows + st.errorRows + 1 := by
  unfold processRow
  simp only []
  split <;> simp <;> omega

/-- The scan adds one counted row per data row. -/
theorem scanRows_rowCount (t m : List (String × String)) (fb : Option FallbackLevel) :
    ∀ (l : List Row) (i : ℕ) (st : ScanState),
      (scanRows t m fb i l st).validRows + (scanRows t m fb i l st).errorRows =
        st.validRows + st.errorRows + l.length := by
  intro l
  induction l with
  | nil => intro i st; simp [scanRows]
  | cons row rest ih =>
    intro i st
    rw [scanRows, ih, processRow_rowCount]
    simp
    omega

/-! ## C3 -/

/-- C3: for every dataset and schema, the summary of `runValidation`
satisfies `validRows + errorRows = totalRows`. -/
theorem c3_valid_add_error_eq_total (data : List Row) (schema : Schema) (name : String)
    (fb : Option FallbackLevel) :
    (runValidation data schema name fb).summary.validRows +
        (runValidation data schema name fb).summary.errorRows =
      (runValidation data schema name fb).summary.totalRows := by
  show (scanData data schema.types (headerScan (headersOf data) schema fb).mappedHeaders fb).validRows +
      (scanData data schema.types (headerScan (headersOf data) schema fb).mappedHeaders fb).errorRows =
    data.length
  unfold scanData
  rw [scanRows_rowCount]
  simp

/-- The outlier-collection loop keeps exactly the values outside the
bounds, in order. -/
theorem collectOutliers_fst (lb ub : ℚ) :
    ∀ (l : List ℚ) (s : ℕ),
      (collectOutliers lb ub s l).1 = l.filter (fun v => decide (v < lb) || decide (v > ub)) := by
  intro l
  induction l with
  | nil => intro s; simp [collectOutliers]
  | cons v r ih =>
    intro s
    rw [collectOutliers, List.filter_cons]
    by_cases h : v < lb ∨ v > ub
    · have hb : (decide (v < lb) || decide (v > ub)) = true := by
        rcases h with h | h <;> simp [h]
      simp [h, hb, ih]
    · have hb : (decide (v < lb) || decide (v > ub)) = false := by
        push_neg at h
        simp [not_lt.mpr h.1, not_lt.mpr h.2]
      simp [h, hb, ih]

/-- The outlier-collection loop records exactly the (pre-sort) indices
of the values outside the bounds, shifted by the start index. -/
theorem collectOutliers_snd (lb ub : ℚ) :
    ∀ (l : List ℚ) (s : ℕ),
      (collectOutliers lb ub s l).2 =
        ((List.range l.length).filter
            (fun i => decide (l.getD i 0 < lb) || decide (l.getD i 0 > ub))).map (fun i => s + i) := by
  intro l
  induction l with
  | nil => intro s; simp [collectOutliers]
  | cons v r ih =>
    intro s
    rw [collectOutliers]
    have hrange : List.range (v :: r).length = 0 :: (List.range r.length).map Nat.succ := by
      simp [List.range_succ_eq_map]
    rw [hrange, List.filter_cons, List.filter_map]
    have hcomp :
        ((fun i => decide ((v :: r).getD i 0 < lb) || decide ((v :: r).getD i 0 > ub)) ∘ Nat.succ) =
          (fun i => decide (r.getD i 0 < lb) || decide (r.getD i 0 > ub)) := by
      funext i
      simp [Function.comp]
    rw [hcomp]
    have harith : ∀ i : ℕ, s + 1 + i = s + Nat.succ i := by intro i; omega
    by_cases h : v < lb ∨ v > ub
    · have hb : (decide ((v :: r).getD 0 0 < lb) || decide ((v :: r).getD 0 0 > ub)) = true := by
        rcases h with h | h <;> simp [h]
      rw [if_pos h, hb, if_pos rfl, ih (s + 1)]
      simp only [List.map_cons, List.map_map]
      refine congrArg₂ _ (by omega) ?_
      refine List.map_congr_left ?_
      intro i _
      simp only [Function.comp]
      omega
    · have hb : (decide ((v :: r).getD 0 0 < lb) || decide ((v :: r).getD 0 0 > ub)) = false := by
        push_neg at h
        simp [not_lt.mpr h.1, not_lt.mpr h.2]
      rw [if_neg h, hb, if_neg (by simp), ih (s + 1)]
      simp only [List.map_map]
      refine List.map_congr_left ?_
      intro i _
      simp only [Function.comp]
      omega

/-! ## C5 -/

/-- C5: `detectOutliers` returns nothing for fewer than 4 values, and
otherwise flags exactly the values outside
`[Q1 − 1.5·IQR, Q3 + 1.5·IQR]` — with Q1/Q3 read off the ascending
sort at indices `⌊n·0.25⌋`/`⌊n·0.75⌋` — keeping each flagged value's
original pre-sort index; `sortAsc` really is the ascending sort of the
input, and on `[10, 12, 11, 13, 9, 500]` only `500` (index 5) is
flagged. -/
theorem c5_detectOutliers_spec (values : List ℚ) :
    (detectOutliers values =
      if values.length < 4 then ([], [])
      else
        let sorted := sortAsc values
        let q1 := sorted.getD (sorted.length * 25 / 100) 0
        let q3 := sorted.getD (sorted.length * 75 / 100) 0
        let iqr := q3 - q1
        let lowerBound := q1 - (1.5 : ℚ) * iqr
        let upperBound := q3 + (1.5 : ℚ) * iqr
        (values.filter (fun v => decide (v < lowerBound) || decide (v > upperBound)),
         (List.range values.length).filter
           (fun i => decide (values.getD i 0 < lowerBound) || decide (values.getD i 0 > upperBound)))) ∧
    List.Sorted (· ≤ ·) (sortAsc values) ∧
    List.Perm (sortAsc values) values ∧
    detectOutliers [10, 12, 11, 13, 9, 500] = ([500], [5]) := by
  refine ⟨?_, ?_, ?_, ?_⟩
  · by_cases h : values.length < 4
    · simp [detectOutliers, h]
    · simp only [detectOutliers, h, if_false]
      refine Prod.ext ?_ ?_
      · rw [collectOutliers_fst]
      · rw [collectOutliers_snd]
        rw [show (fun i => (0 : ℕ) + i) = fun i : ℕ => i by funext i; omega]
        simp
  · exact List.sorted_insertionSort _ values
  · exact List.perm_insertionSort _ values
  · with_unfolding_all rfl

/-! ## C8 -/

/-- C8: `isValidDate` tests the trimmed input against the fixed ordered
`DATE_FORMATS` list where the first matching pattern wins; with no
matching pattern the result is invalid; on a match the input is parsed
through `dateYearFor` (which reorders day and month for the European
dotted formats) and is valid exactly when the parsed year lies strictly
between 1900 and 2100, reporting the matched format's name; in
particular `"31.12.2023"` is valid with format `DD.MM.YYYY (European)`. -/
theorem c8_isValidDate_spec (s : String) :
    (DATE_FORMATS.find? (fun f => f.pattern (jsTrim s)) = none → isValidDate s = ⟨false, none⟩) ∧
    (∀ fmt, DATE_FORMATS.find? (fun f => f.pattern (jsTrim s)) = some fmt →
      isValidDate s =
        match dateYearFor (jsTrim s) fmt with
        | some y => if 1900 < y ∧ y < 2100 then ⟨true, some fmt.name⟩ else ⟨false, none⟩
        | none => ⟨false, none⟩) ∧
    ((isValidDate s).isValid = true →
      ∃ fmt y, DATE_FORMATS.find? (fun f => f.pattern (jsTrim s)) = some fmt ∧
        dateYearFor (jsTrim s) fmt = some y ∧ 1900 < y ∧ y < 2100 ∧
        (isValidDate s).detectedFormat = some fmt.name) ∧
    isValidDate "31.12.2023" = ⟨true, some "DD.MM.YYYY (European)"⟩ := by
  have hempty : DATE_FORMATS.find? (fun f => f.pattern (jsTrim "")) = none := by
    with_unfolding_all rfl
  refine ⟨?_, ?_, ?_, by with_unfolding_all rfl⟩
  · intro hf
    by_cases hs : s = ""
    · subst hs; with_unfolding_all rfl
    · simp only [isValidDate, if_neg hs, hf]
  · intro fmt hf
    by_cases hs : s = ""
    · rw [hs] at hf
      rw [hempty] at hf
      exact absurd hf (by simp)
    · simp only [isValidDate, if_neg hs, hf]
  · intro hvalid
    by_cases hs : s = ""
    · rw [hs] at hvalid
      exact absurd hvalid (by with_unfolding_all decide)
    · rcases hf : DATE_FORMATS.find? (fun f => f.pattern (jsTrim s)) with _ | fmt
      · rw [show isValidDate s = ⟨false, none⟩ by simp only [isValidDate, if_neg hs, hf]] at hvalid
        exact absurd hvalid (by simp)
      · rcases hy : dateYearFor (jsTrim s) fmt with _ | y
        · have hrun : isValidDate s = ⟨false, none⟩ := by
            simp only [isValidDate, if_neg hs, hf, hy]
          rw [hrun] at hvalid
          exact absurd hvalid (by simp)
        · have hrun : isValidDate s =
              if 1900 < y ∧ y < 2100 then ⟨true, some fmt.name⟩ else ⟨false, none⟩ := by
            simp only [isValidDate, if_neg hs, hf, hy]
          by_cases hrange : 1900 < y ∧ y < 2100
          · rw [if_pos hrange] at hrun
            exact ⟨fmt, y, hf, hy, hrange.1, hrange.2, by rw [hrun]⟩
          · rw [if_neg hrange] at hrun
            rw [hrun] at hvalid
            exact absurd hvalid (by simp)

/-- C8 witness: the theorem applied at `"hello"` (no pattern matches)
and at the claim's scenario `"31.12.2023"`. -/
theorem c8_witness :
    isValidDate "hello" = ⟨false, none⟩ ∧
    (∃ fmt y, DATE_FORMATS.find? (fun f => f.pattern (jsTrim "31.12.2023")) = some fmt ∧
      dateYearFor (jsTrim "31.12.2023") fmt = some y ∧ 1900 < y ∧ y < 2100 ∧
      (isValidDate "31.12.2023").detectedFormat = some fmt.name) :=
  ⟨(c8_isValidDate_spec "hello").1 (by with_unfolding_all rfl),
   (c8_isValidDate_spec "31.12.2023").2.2.1 (by with_unfolding_all rfl)⟩

/-! ## C9 -/

/-- C9 counterexample: `"Infinity"` strips to itself and converts to
the non-finite number `Infinity`, which is not NaN, so the source's
`isValidNumber` accepts it while the claim ("parses as a finite
number") demands rejection. -/
theorem c9_counterexample :
    isValidNumber "Infinity" = true ∧ isValidNumberClaim "Infinity" = false ∧
    jsToNumber (numStrip "Infinity") = JsNum.posInf := by
  with_unfolding_all exact ⟨rfl, rfl, rfl⟩

/-- C9 amended: `isValidNumber` strips thousands separators, dollar
signs and whitespace and returns `true` iff the stripped string is
non-empty and converts to a number that is not NaN (so the non-finite
`Infinity` values are accepted too); `"$1,234.50"` is accepted and
parses to `1234.50`. -/
theorem c9_isValidNumber_amended (value : String) :
    isValidNumber value =
      (decide (numStrip value ≠ "") && decide (jsToNumber (numStrip value) ≠ JsNum.nan)) ∧
    isValidNumber "$1,234.50" = true ∧
    jsToNumber (numStrip "$1,234.50") = JsNum.val (2469 / 2) := by
  refine ⟨?_, by with_unfolding_all rfl, by with_unfolding_all rfl⟩
  by_cases hv : value = ""
  · subst hv; with_unfolding_all rfl
  · simp only [isValidNumber, if_neg hv]
    exact Bool.and_comm _ _

/-! ## Scan shape lemmas -/

/-- Any error appended by a single cell is a `TYPE_MISMATCH` or
`FORMAT_ERROR` whose severity is warning exactly on the all-purpose
layer. -/
theorem mem_processCell_errors {types mapped : List (String × String)}
    {fb : Option FallbackLevel} {i : ℕ} {st : CellAcc × Bool} {cell : String × String}
    {e : ValidationError} (he : e ∈ (processCell types mapped fb i st cell).1.errors) :
    e ∈ st.1.errors ∨
      ((e.type = ErrType.TYPE_MISMATCH ∨ e.type = ErrType.FORMAT_ERROR) ∧
        e.severity = (if fb = some FallbackLevel.allPurpose then Severity.warning else .error)) := by
  simp only [processCell] at he
  split at he
  · exact Or.inl he
  · split at he
    · split at he
      · simp only [List.mem_append, List.mem_singleton] at he
        rcases he with he | he
        · exact Or.inl he
        · subst he
          exact Or.inr ⟨Or.inl rfl, rfl⟩
      · exact Or.inl he
    · split at he
      · simp only [List.mem_append, List.mem_singleton] at he
        rcases he with he | he
        · exact Or.inl he
        · subst he
          exact Or.inr ⟨Or.inr rfl, rfl⟩
      · exact Or.inl he
    · exact Or.inl he

/-- Any warning appended by a single cell is an `EMPTY_VALUE` warning. -/
theorem mem_processCell_warnings {types mapped : List (String × String)}
    {fb : Option FallbackLevel} {i : ℕ} {st : CellAcc × Bool} {cell : String × String}
    {e : ValidationError} (he : e ∈ (processCell types mapped fb i st cell).1.warnings) :
    e ∈ st.1.warnings ∨ (e.type = ErrType.EMPTY_VALUE ∧ e.severity = Severity.warning) := by
  simp only [processCell] at he
  split at he
  · simp only [List.mem_append, List.mem_singleton] at he
    rcases he with he | he
    · exact Or.inl he
    · subst he
      exact Or.inr ⟨rfl, rfl⟩
  · split at he
    · split at he
      · exact Or.inl he
      · exact Or.inl he
    · split at he
      · exact Or.inl he
      · exact Or.inl he
    · exact Or.inl he

/-- Errors appended anywhere along a row keep the single-cell shape:
the in-row fold lifts `mem_processCell_errors`. -/
theorem mem_cellsFold_errors {types mapped : List (String × String)}
    {fb : Option FallbackLevel} {i : ℕ} :
    ∀ (row : Row) (st : CellAcc × Bool) (e : ValidationError),
      e ∈ (row.foldl (processCell types mapped fb i) st).1.errors →
      e ∈ st.1.errors ∨
        ((e.type = ErrType.TYPE_MISMATCH ∨ e.type = ErrType.FORMAT_ERROR) ∧
          e.severity = (if fb = some FallbackLevel.allPurpose then Severity.warning else .error)) := by
  intro row
  induction row with
  | nil => intro st e he; exact Or.inl he
  | cons c rest ih =>
    intro st e he
    rw [List.foldl_cons] at he
    rcases ih _ _ he with h | h
    · exact mem_processCell_errors h
    · exact Or.inr h

/-- The in-row fold only appends `EMPTY_VALUE` warnings. -/
theorem mem_cellsFold_warnings {types mapped : List (String × String)}
    {fb : Option FallbackLevel} {i : ℕ} :
    ∀ (row : Row) (st : CellAcc × Bool) (e : ValidationError),
      e ∈ (row.foldl (processCell types mapped fb i) st).1.warnings →
      e ∈ st.1.warnings ∨ (e.type = ErrType.EMPTY_VALUE ∧ e.severity = Severity.warning) := by
  intro row
  induction row with
  | nil => intro st e he; exact Or.inl he
  | cons c rest ih =>
    intro st e he
    rw [List.foldl_cons] at he
    rcases ih _ _ he with h | h
    · exact mem_processCell_warnings h
    · exact Or.inr h

/-- The row step passes the cell accumulator through unchanged apart
from the in-row fold. -/
theorem processRow_acc (t m : List (String × String)) (fb : Option FallbackLevel)
    (st : ScanState) (i : ℕ) (row : Row) :
    (processRow t m fb st i row).acc = (row.foldl (processCell t m fb i) (st.acc, false)).1 := by
  unfold processRow
  simp only []
  split <;> rfl

/-- Every error accumulated by the whole scan is a `TYPE_MISMATCH` or
`FORMAT_ERROR` with the layer-determined severity. -/
theorem mem_scanRows_errors {t m : List (String × String)} {fb : Option FallbackLevel} :
    ∀ (l : List Row) (i : ℕ) (st : ScanState) (e : ValidationError),
      e ∈ (scanRows t m fb i l st).acc.errors →
      e ∈ st.acc.errors ∨
        ((e.type = ErrType.TYPE_MISMATCH ∨ e.type = ErrType.FORMAT_ERROR) ∧
          e.severity = (if fb = some FallbackLevel.allPurpose then Severity.warning else .error)) := by
  intro l
  induction l with
  | nil => intro i st e he; exact Or.inl he
  | cons row rest ih =>
    intro i st e he
    rw [scanRows] at he
    rcases ih _ _ _ he with h | h
    · rw [processRow_acc] at h
      exact mem_cellsFold_errors row _ e h
    · exact Or.inr h

/-- Every warning accumulated by the whole scan is an `EMPTY_VALUE`
warning. -/
theorem mem_scanRows_warnings {t m : List (String × String)} {fb : Option FallbackLevel} :
    ∀ (l : List Row) (i : ℕ) (st : ScanState) (e : ValidationError),
      e ∈ (scanRows t m fb i l st).acc.warnings →
      e ∈ st.acc.warnings ∨ (e.type = ErrType.EMPTY_VALUE ∧ e.severity = Severity.warning) := by
  intro l
  induction l with
  | nil => intro i st e he; exact Or.inl he
  | cons row rest ih =>
    intro i st e he
    rw [scanRows] at he
    rcases ih _ _ _ he with h | h
    · rw [processRow_acc] at h
      exact mem_cellsFold_warnings row _ e h
    · exact Or.inr h

/-- Outlier warnings all carry the `OUTLIER` type at warning severity. -/
theorem mem_outlierWarnings {nv : List (String × List ℚ × List ℕ)} {e : ValidationError}
    (he : e ∈ outlierWarnings nv) :
    e.type = ErrType.OUTLIER ∧ e.severity = Severity.warning := by
  simp only [outlierWarnings, List.mem_filterMap] at he
  rcases he with ⟨a, _, ha⟩
  split at ha
  · rcases Option.some.inj ha with rfl
    exact ⟨rfl, rfl⟩
  · exact absurd ha (by simp)

/-! ## C1 -/

/-- C1 counterexample: an all-purpose run over one bad numeric cell
produces a single TYPE_MISMATCH entry that is downgraded to warning
severity — yet it is pushed into `errors`, so `isValid` is `false`,
contradicting the claim that the all-purpose layer can never report
`isValid = false` on account of type/format issues. -/
theorem c1_counterexample :
    (runValidation [[("h", "abc")]] ⟨[], [], [("h", "number")]⟩ "All-Purpose (Fallback)"
        (some FallbackLevel.allPurpose)).isValid = false ∧
    (runValidation [[("h", "abc")]] ⟨[], [], [("h", "number")]⟩ "All-Purpose (Fallback)"
        (some FallbackLevel.allPurpose)).errors.length = 1 ∧
    ((runValidation [[("h", "abc")]] ⟨[], [], [("h", "number")]⟩ "All-Purpose (Fallback)"
        (some FallbackLevel.allPurpose)).errors.all
      (fun e => decide (e.severity = Severity.warning) &&
        decide (e.type = ErrType.TYPE_MISMATCH))) = true := by
  with_unfolding_all exact ⟨rfl, rfl, rfl⟩

/-- C1 amended: under the all-purpose schema the required-field and
extra-field checks are skipped entirely (headers map to themselves, no
MISSING_FIELD or EXTRA_FIELD entry anywhere), every type/format issue
is downgraded to severity warning — but such issues are still appended
to the `errors` list, so an all-purpose run reports `isValid = false`
exactly when at least one type/format issue was found. -/
theorem c1_allPurpose_amended (data : List Row) (schema : Schema) (name : String) :
    (headerScan (headersOf data) schema (some FallbackLevel.allPurpose) =
      ⟨[], (headersOf data).map (fun h => (h, h)), [], []⟩) ∧
    extraFieldWarnings (headersOf data) schema (some FallbackLevel.allPurpose) = [] ∧
    (∀ e ∈ (runValidation data schema name (some FallbackLevel.allPurpose)).errors,
      e.severity = Severity.warning ∧
        (e.type = ErrType.TYPE_MISMATCH ∨ e.type = ErrType.FORMAT_ERROR)) ∧
    (∀ e ∈ (runValidation data schema name (some FallbackLevel.allPurpose)).errors ++
        (runValidation data schema name (some FallbackLevel.allPurpose)).warnings,
      e.type ≠ ErrType.MISSING_FIELD ∧ e.type ≠ ErrType.EXTRA_FIELD) ∧
    (runValidation data schema name (some FallbackLevel.allPurpose)).isValid =
      (runValidation data schema name (some FallbackLevel.allPurpose)).errors.isEmpty := by
  have hstruct :
      structuralAppend (preErrors data schema (some FallbackLevel.allPurpose)) schema data.length
        (some FallbackLevel.allPurpose) = [] := by
    simp [structuralAppend]
  have herr : (runValidation data schema name (some FallbackLevel.allPurpose)).errors =
      preErrors data schema (some FallbackLevel.allPurpose) ++
        structuralAppend (preErrors data schema (some FallbackLevel.allPurpose)) schema data.length
          (some FallbackLevel.allPurpose) := rfl
  rw [hstruct, List.append_nil] at herr
  have hpre : preErrors data schema (some FallbackLevel.allPurpose) =
      (scanData data schema.types
        ((headersOf data).map (fun h => (h, h))) (some FallbackLevel.allPurpose)).acc.errors := by
    simp [preErrors, headerScan]
  have herrs : ∀ e ∈ (runValidation data schema name (some FallbackLevel.allPurpose)).errors,
      e.severity = Severity.warning ∧
        (e.type = ErrType.TYPE_MISMATCH ∨ e.type = ErrType.FORMAT_ERROR) := by
    intro e he
    rw [herr, hpre] at he
    rcases mem_scanRows_errors data 0 _ e he with h | h
    · exact absurd h (List.not_mem_nil e)
    · refine ⟨?_, h.1⟩
      have := h.2
      rw [if_pos rfl] at this
      exact this
  have hwarn : (runValidation data schema name (some FallbackLevel.allPurpose)).warnings =
      extraFieldWarnings (headersOf data) schema (some FallbackLevel.allPurpose) ++
        (scanData data schema.types
          (headerScan (headersOf data) schema (some FallbackLevel.allPurpose)).mappedHeaders
          (some FallbackLevel.allPurpose)).acc.warnings ++
        outlierWarnings (scanData data schema.types
          (headerScan (headersOf data) schema (some FallbackLevel.allPurpose)).mappedHeaders
          (some FallbackLevel.allPurpose)).acc.numericValues := rfl
  have hextra : extraFieldWarnings (headersOf data) schema (some FallbackLevel.allPurpose) = [] := by
    simp [extraFieldWarnings]
  refine ⟨by simp [headerScan], hextra, herrs, ?_, ?_⟩
  · intro e he
    rw [List.mem_append] at he
    rcases he with he | he
    · rcases (herrs e he).2 with h | h <;> simp [h]
    · rw [hwarn, hextra, List.nil_append, List.mem_append] at he
      rcases he with he | he
      · rcases mem_scanRows_warnings data 0 _ e he with h | h
        · exact absurd h (List.not_mem_nil e)
        · simp [h.1]
      · have := (mem_outlierWarnings he).1
        simp [this]
  · have hmiss : (headerScan (headersOf data) schema (some FallbackLevel.allPurpose)).missingHeaders
        = [] := by
      simp [headerScan]
    have hvalid : (runValidation data schema name (some FallbackLevel.allPurpose)).isValid =
        ((preErrors data schema (some FallbackLevel.allPurpose)).isEmpty &&
          (headerScan (headersOf data) schema (some FallbackLevel.allPurpose)).missingHeaders.isEmpty) := rfl
    rw [hvalid, hmiss, herr]
    simp

/-- C1 witness: the amended theorem applied to the concrete all-purpose
run with one bad numeric cell, whose single error entry is the
downgraded TYPE_MISMATCH. -/
theorem c1_witness :
    (typeMismatchError "h" "abc" 0 Severity.warning).severity = Severity.warning ∧
    ((typeMismatchError "h" "abc" 0 Severity.warning).type = ErrType.TYPE_MISMATCH ∨
      (typeMismatchError "h" "abc" 0 Severity.warning).type = ErrType.FORMAT_ERROR) :=
  (c1_allPurpose_amended [[("h", "abc")]] ⟨[], [], [("h", "number")]⟩
      "All-Purpose (Fallback)").2.2.1
    (typeMismatchError "h" "abc" 0 Severity.warning) (by with_unfolding_all decide)

/-! ## C4 -/

/-- Rounding to two decimals preserves non-negativity. -/
theorem round2_nonneg {x : ℚ} (hx : 0 ≤ x) : 0 ≤ round2 x := by
  unfold round2
  have h : (0 : ℤ) ≤ round (x * 100) := by
    rw [round_eq]
    refine Int.le_floor.mpr ?_
    push_cast
    linarith
  have h2 : (0 : ℚ) ≤ ((round (x * 100) : ℤ) : ℚ) := by exact_mod_cast h
  positivity

/-- Rounding to two decimals preserves the upper bound 100. -/
theorem round2_le_100 {x : ℚ} (hx : x ≤ 100) : round2 x ≤ 100 := by
  unfold round2
  have h : round (x * 100) ≤ 10000 := by
    rw [round_eq]
    have h1 : (⌊x * 100 + 1 / 2⌋ : ℤ) ≤ ⌊(10000 + 1 / 2 : ℚ)⌋ :=
      Int.floor_le_floor (by linarith)
    have h2 : (⌊(10000 + 1 / 2 : ℚ)⌋ : ℤ) = 10000 := by
      rw [Int.floor_eq_iff]
      norm_num
    omega
  rw [div_le_iff₀ (by norm_num : (0 : ℚ) < 100)]
  have h3 : ((round (x * 100) : ℤ) : ℚ) ≤ (10000 : ℚ) := by exact_mod_cast h
  linarith

/-- The raw score is clamped below at 0. -/
theorem dataQualityScoreRaw_nonneg (e w : ℕ) (q : ℚ) : 0 ≤ dataQualityScoreRaw e w q :=
  le_max_left 0 _

/-- With a non-negative empty-value percentage the raw score is at
most 100. -/
theorem dataQualityScoreRaw_le_100 (e w : ℕ) {q : ℚ} (hq : 0 ≤ q) :
    dataQualityScoreRaw e w q ≤ 100 := by
  unfold dataQualityScoreRaw
  refine max_le (by norm_num) ?_
  have he : (0 : ℚ) ≤ (e : ℚ) * 10 := by positivity
  have hw : (0 : ℚ) ≤ (w : ℚ) * 2 := by positivity
  linarith

/-- The metrics-stage empty-value percentage is non-negative. -/
theorem emptyValuePercentageOf_nonneg (acc : CellAcc) : 0 ≤ emptyValuePercentageOf acc := by
  unfold emptyValuePercentageOf
  split
  · positivity
  · exact le_refl 0

/-- C4 counterexample: for the dataset `[{x: "v"}]` against a schema
requiring `A`, the structural-collapse check appends a FORMAT_ERROR
*after* the score was computed, so the summary score (88) does not
match the claim's formula evaluated on the lengths of the result's
lists (78). -/
theorem c4_counterexample :
    (runValidation [[("x", "v")]] ⟨["A"], [], []⟩ "S" none).summary.dataQualityScore ≠
      round2 (dataQualityScoreRaw
        (runValidation [[("x", "v")]] ⟨["A"], [], []⟩ "S" none).errors.length
        (runValidation [[("x", "v")]] ⟨["A"], [], []⟩ "S" none).warnings.length
        (runValidation [[("x", "v")]] ⟨["A"], [], []⟩ "S" none).summary.emptyValuePercentage) ∧
    (runValidation [[("x", "v")]] ⟨["A"], [], []⟩ "S" none).summary.dataQualityScore = 88 ∧
    (runValidation [[("x", "v")]] ⟨["A"], [], []⟩ "S" none).errors.length = 2 ∧
    (runValidation [[("x", "v")]] ⟨["A"], [], []⟩ "S" none).warnings.length = 1 ∧
    (runValidation [[("x", "v")]] ⟨["A"], [], []⟩ "S" none).summary.emptyValuePercentage = 0 ∧
    round2 (dataQualityScoreRaw 2 1 0) = 78 :=
  ⟨by with_unfolding_all decide, by with_unfolding_all rfl, by with_unfolding_all rfl,
   by with_unfolding_all rfl, by with_unfolding_all rfl, by with_unfolding_all rfl⟩

/-- C4 amended: the summary's `emptyValuePercentage` is
`100 × emptyCells / totalCells` rounded to two decimals, and its
`dataQualityScore` is `max(0, 100 − 10·e − 2·w − ep)` rounded to two
decimals, where `e` and `w` count the errors and warnings accumulated
*before* the structural-collapse check (that check may append one more
FORMAT_ERROR to the result's errors afterwards) and `ep` is the
unrounded percentage; the summary score always lies in `[0, 100]` and
the raw score formula is monotonically non-increasing in both counts. -/
theorem c4_score_amended (data : List Row) (schema : Schema) (name : String)
    (fb : Option FallbackLevel) :
    (runValidation data schema name fb).summary.emptyValuePercentage =
      round2 (emptyValuePercentageOf
        (scanData data schema.types (headerScan (headersOf data) schema fb).mappedHeaders fb).acc) ∧
    (runValidation data schema name fb).summary.dataQualityScore =
      round2 (dataQualityScoreRaw (preErrors data schema fb).length
        (allWarnings data schema fb).length
        (emptyValuePercentageOf
          (scanData data schema.types (headerScan (headersOf data) schema fb).mappedHeaders fb).acc)) ∧
    0 ≤ (runValidation data schema name fb).summary.dataQualityScore ∧
    (runValidation data schema name fb).summary.dataQualityScore ≤ 100 ∧
    (∀ (e w e2 w2 : ℕ) (q : ℚ), e ≤ e2 → w ≤ w2 →
      dataQualityScoreRaw e2 w2 q ≤ dataQualityScoreRaw e w q) := by
  refine ⟨rfl, rfl, ?_, ?_, ?_⟩
  · exact round2_nonneg (dataQualityScoreRaw_nonneg _ _ _)
  · exact round2_le_100
      (dataQualityScoreRaw_le_100 _ _ (emptyValuePercentageOf_nonneg _))
  · intro e w e2 w2 q he hw
    unfold dataQualityScoreRaw
    refine max_le_max le_rfl ?_
    have he2 : (e : ℚ) ≤ (e2 : ℚ) := by exact_mod_cast he
    have hw2 : (w : ℚ) ≤ (w2 : ℚ) := by exact_mod_cast hw
    linarith

/-- C4 witness: the monotonicity component of the amended theorem at
concrete counts. -/
theorem c4_witness : dataQualityScoreRaw 1 1 0 ≤ dataQualityScoreRaw 0 0 0 :=
  (c4_score_amended [] OTHERS_SCHEMA "S" none).2.2.2.2 0 0 1 1 0 (Nat.zero_le 1) (Nat.zero_le 1)

/-! ## C7 -/

/-- C7 counterexample: two invalid date cells under a named schema
yield two FORMAT_ERROR entries; by the claim's count (which includes
FORMAT_ERROR) `2 > 0.5 × (1 + 2·1)`, so the claim demands the extra
"unclear file structure" entry — but the source counts only
MISSING_FIELD and TYPE_MISMATCH, counts 0, and appends nothing. -/
theorem c7_counterexample :
    (runValidation [[("d", "x")], [("d", "y")]] ⟨["d"], [], [("d", "date")]⟩ "S" none).errors.length
      = 2 ∧
    ((runValidation [[("d", "x")], [("d", "y")]] ⟨["d"], [], [("d", "date")]⟩ "S" none).errors.filter
      (fun e => e.type = ErrType.MISSING_FIELD ∨ e.type = ErrType.TYPE_MISMATCH ∨
        e.type = ErrType.FORMAT_ERROR)).length = 2 ∧
    ((2 : ℚ) > ((1 + 2 * 1 : ℕ) : ℚ) * (0.5 : ℚ)) ∧
    structuralError ∉
      (runValidation [[("d", "x")], [("d", "y")]] ⟨["d"], [], [("d", "date")]⟩ "S" none).errors :=
  ⟨by with_unfolding_all rfl, by with_unfolding_all rfl, by norm_num,
   by with_unfolding_all decide⟩

/-- C7 amended: for named (non-all-purpose) schemas, one additional
FORMAT_ERROR ("unclear file structure") is appended iff the count of
MISSING_FIELD and TYPE_MISMATCH errors accumulated so far (FORMAT_ERROR
entries are *not* counted) exceeds 50% of
`required.length + rows × typedFieldCount`. -/
theorem c7_structural_amended (data : List Row) (schema : Schema) (name : String)
    (fb : Option FallbackLevel) (hfb : fb ≠ some FallbackLevel.allPurpose) :
    (runValidation data schema name fb).errors =
      preErrors data schema fb ++
        (if (((preErrors data schema fb).filter
              (fun e => e.type = ErrType.MISSING_FIELD ∨ e.type = ErrType.TYPE_MISMATCH)).length : ℚ) >
            ((schema.required.length + data.length * schema.types.length : ℕ) : ℚ) * (0.5 : ℚ)
          then [structuralError] else []) := by
  have h : (runValidation data schema name fb).errors =
      preErrors data schema fb ++
        structuralAppend (preErrors data schema fb) schema data.length fb := rfl
  rw [h]
  congr 1
  simp [structuralAppend, hfb]

/-- C7 witness: the amended theorem applied to the two-row invalid-date
dataset. -/
theorem c7_witness :
    (runValidation [[("d", "x")], [("d", "y")]] ⟨["d"], [], [("d", "date")]⟩ "S" none).errors =
      preErrors [[("d", "x")], [("d", "y")]] ⟨["d"], [], [("d", "date")]⟩ none ++
        (if (((preErrors [[("d", "x")], [("d", "y")]] ⟨["d"], [], [("d", "date")]⟩ none).filter
              (fun e => e.type = ErrType.MISSING_FIELD ∨ e.type = ErrType.TYPE_MISMATCH)).length : ℚ) >
            (((⟨["d"], [], [("d", "date")]⟩ : Schema).required.length +
              ([[("d", "x")], [("d", "y")]] : List Row).length *
                (⟨["d"], [], [("d", "date")]⟩ : Schema).types.length : ℕ) : ℚ) * (0.5 : ℚ)
          then [structuralError] else []) :=
  c7_structural_amended [[("d", "x")], [("d", "y")]] ⟨["d"], [], [("d", "date")]⟩ "S" none
    (by simp)

/-! ## C6 -/

/-- Comparing a count ratio against a rational threshold is the same as
cross-multiplying. -/
theorem count_ratio_gt_iff (n len a b : ℕ) (hl : 0 < len) (hb : 0 < b) :
    ((n : ℚ) / (len : ℚ) > (a : ℚ) / (b : ℚ)) ↔ b * n > a * len := by
  rw [gt_iff_lt, div_lt_div_iff₀ (by positivity) (by exact_mod_cast hl)]
  rw [gt_iff_lt, show ((a : ℚ) * len = ((a * len : ℕ) : ℚ)) by push_cast; ring,
    show ((n : ℚ) * b = ((b * n : ℕ) : ℚ)) by push_cast; ring]
  exact_mod_cast Iff.rfl

/-- C6 counterexample: the claim's sampling ("first 100 non-empty
values", inclusive ≥ 80% threshold) disagrees with the source on both
counts: a column that is exactly 80% numeric is typed `string` by the
source (strict `>`), and values beyond the first 100 *rows* are never
sampled, so a column whose only values sit in row 101 is typed
`string` even though the claim's sample would type it `number`. -/
theorem c6_counterexample :
    inferDataTypes [[("h", "1")], [("h", "2")], [("h", "3")], [("h", "4")], [("h", "x")]] ["h"] =
      [("h", "string")] ∧
    inferDataTypesClaim [[("h", "1")], [("h", "2")], [("h", "3")], [("h", "4")], [("h", "x")]] ["h"] =
      [("h", "number")] ∧
    inferDataTypes (List.replicate 100 [("h", "")] ++ [[("h", "5")]]) ["h"] = [("h", "string")] ∧
    inferDataTypesClaim (List.replicate 100 [("h", "")] ++ [[("h", "5")]]) ["h"] =
      [("h", "number")] :=
  ⟨by with_unfolding_all rfl, by with_unfolding_all rfl, by with_unfolding_all rfl,
   by with_unfolding_all rfl⟩

/-- C6 amended: `inferDataTypes` samples the non-empty values among the
first 100 rows of each column and infers `number` when strictly more
than 80% of the sample passes `isValidNumber`, else `date` when
strictly more than 60% passes `isValidDate`, else `string` (also for an
empty sample) — as captured by the spec-level `inferDataTypesAmended`. -/
theorem c6_infer_amended (data : List Row) (headers : List String) :
    inferDataTypes data headers = inferDataTypesAmended data headers := by
  unfold inferDataTypes inferDataTypesAmended
  refine List.map_congr_left ?_
  intro header _
  have htake : data.take (min 100 data.length) = data.take 100 := by
    rcases le_or_lt 100 data.length with h | h
    · rw [min_eq_left h]
    · rw [min_eq_right h.le, List.take_length, List.take_of_length_le h.le]
  have hfun : ∀ row : Row,
      (match row.lookup header with
        | some v => if v ≠ "" ∧ jsTrim v ≠ "" then some v else none
        | none => none) =
      (row.lookup header).bind (fun v => if jsTrim v = "" then none else some v) := by
    intro row
    cases hl : row.lookup header with
    | none => rfl
    | some v =>
      show (if v ≠ "" ∧ jsTrim v ≠ "" then some v else none) =
        (if jsTrim v = "" then none else some v)
      by_cases hv : jsTrim v = ""
      · rw [if_pos hv, if_neg (by simp [hv])]
      · rw [if_neg hv, if_pos ⟨fun h0 => hv (by rw [h0]; rfl), hv⟩]
  have hvals : (data.take (min 100 data.length)).filterMap (fun row =>
      match row.lookup header with
      | some v => if v ≠ "" ∧ jsTrim v ≠ "" then some v else none
      | none => none) =
    (data.take 100).filterMap (fun row =>
      (row.lookup header).bind (fun v => if jsTrim v = "" then none else some v)) := by
    rw [htake]
    exact List.filterMap_congr (fun row _ => hfun row)
  rw [hvals]
  dsimp only
  by_cases h0 : ((data.take 100).filterMap (fun row =>
      (row.lookup header).bind (fun v => if jsTrim v = "" then none else some v))).length = 0
  · rw [if_pos h0, if_pos (List.isEmpty_iff_length_eq_zero.mpr h0)]
  · have hlen : 0 < ((data.take 100).filterMap (fun row =>
        (row.lookup header).bind (fun v => if jsTrim v = "" then none else some v))).length :=
      Nat.pos_of_ne_zero h0
    rw [if_neg h0, if_neg (fun hcon => h0 (List.isEmpty_iff_length_eq_zero.mp hcon))]
    refine if_congr ?_ rfl (if_congr ?_ rfl rfl)
    · rw [show (0.8 : ℚ) = ((4 : ℕ) : ℚ) / ((5 : ℕ) : ℚ) by norm_num]
      exact count_ratio_gt_iff _ _ 4 5 hlen (by norm_num)
    · rw [show (0.6 : ℚ) = ((3 : ℕ) : ℚ) / ((5 : ℕ) : ℚ) by norm_num]
      exact count_ratio_gt_iff _ _ 3 5 hlen (by norm_num)

/-! ## C2 -/

/-- A cell scanned against an empty type table never pushes an error. -/
theorem processCell_errors_types_nil (m : List (String × String)) (fb : Option FallbackLevel)
    (i : ℕ) (st : CellAcc × Bool) (cell : String × String) :
    (processCell [] m fb i st cell).1.errors = st.1.errors := by
  simp only [processCell]
  split
  · rfl
  · cases hfind : List.find? (fun p => decide (p.2 = cell.1)) m with
    | none => rfl
    | some p => rfl

/-- A row fold against an empty type table accumulates no errors. -/
theorem cellsFold_errors_types_nil (m : List (String × String)) (fb : Option FallbackLevel)
    (i : ℕ) :
    ∀ (row : Row) (st : CellAcc × Bool),
      (row.foldl (processCell [] m fb i) st).1.errors = st.1.errors := by
  intro row
  induction row with
  | nil => intro st; rfl
  | cons c cs ih =>
    intro st
    rw [List.foldl_cons, ih, processCell_errors_types_nil]

/-- A whole scan against an empty type table accumulates no errors. -/
theorem scanRows_errors_types_nil (m : List (String × String)) (fb : Option FallbackLevel) :
    ∀ (l : List Row) (i : ℕ) (st : ScanState),
      (scanRows [] m fb i l st).acc.errors = st.acc.errors := by
  intro l
  induction l with
  | nil => intro i st; rfl
  | cons row rest ih =>
    intro i st
    rw [scanRows, ih, processRow_acc, cellsFold_errors_types_nil]

/-- Running the generic zero-requirement schema never produces an
error: there are no required fields to miss and no typed fields to
check, so the result is valid with an empty error list. -/
theorem runValidation_others (data : List Row) (name : String) :
    (runValidation data OTHERS_SCHEMA name (some FallbackLevel.industry)).errors = [] ∧
    (runValidation data OTHERS_SCHEMA name (some FallbackLevel.industry)).isValid = true := by
  have hs : headerScan (headersOf data) OTHERS_SCHEMA (some FallbackLevel.industry) =
      ⟨[], [], [], []⟩ := rfl
  have hpre : preErrors data OTHERS_SCHEMA (some FallbackLevel.industry) = [] := by
    show (headerScan (headersOf data) OTHERS_SCHEMA (some FallbackLevel.industry)).errors ++
        (scanData data OTHERS_SCHEMA.types
          (headerScan (headersOf data) OTHERS_SCHEMA (some FallbackLevel.industry)).mappedHeaders
          (some FallbackLevel.industry)).acc.errors = []
    rw [hs]
    show ([] : List ValidationError) ++
        (scanData data ([] : List (String × String)) [] (some FallbackLevel.industry)).acc.errors = []
    rw [List.nil_append]
    exact scanRows_errors_types_nil [] (some FallbackLevel.industry) data 0 _
  have hstruct : structuralAppend ([] : List ValidationError) OTHERS_SCHEMA data.length
      (some FallbackLevel.industry) = [] := by
    rw [structuralAppend]
    rw [if_pos (by simp)]
    rw [if_neg]
    simp [OTHERS_SCHEMA]
  have herr : (runValidation data OTHERS_SCHEMA name (some FallbackLevel.industry)).errors =
      preErrors data OTHERS_SCHEMA (some FallbackLevel.industry) ++
        structuralAppend (preErrors data OTHERS_SCHEMA (some FallbackLevel.industry)) OTHERS_SCHEMA
          data.length (some FallbackLevel.industry) := rfl
  rw [hpre, hstruct] at herr
  refine ⟨by rw [herr]; rfl, ?_⟩
  have hv : (runValidation data OTHERS_SCHEMA name (some FallbackLevel.industry)).isValid =
      ((preErrors data OTHERS_SCHEMA (some FallbackLevel.industry)).isEmpty &&
        (headerScan (headersOf data) OTHERS_SCHEMA (some FallbackLevel.industry)).missingHeaders.isEmpty) :=
    rfl
  rw [hv, hpre, hs]
  rfl

/-- C2 counterexample: for a one-row dataset with the unrecognized
header `zzz` and industry `others`, Layer 1 returns a valid result with
no errors — but `fallbackLevel` is *set* (to `industry`), because the
orchestrator passes `'industry'` into `runValidation` at Layer 1,
contradicting the claimed "set iff a fallback layer was used". -/
theorem c2_counterexample :
    (validateCSVData [[("zzz", "1")]] "others").fallbackLevel ≠ none ∧
    (validateCSVData [[("zzz", "1")]] "others").fallbackLevel = some FallbackLevel.industry ∧
    (validateCSVData [[("zzz", "1")]] "others").isValid = true ∧
    (validateCSVData [[("zzz", "1")]] "others").errors = [] :=
  ⟨by with_unfolding_all decide, by with_unfolding_all rfl, by with_unfolding_all rfl,
   by with_unfolding_all rfl⟩

/-- C2 amended: for every non-empty dataset, the result's
`fallbackLevel` is always set, to `industry` when the Layer-1 schema
produced the returned result and to `all-purpose` when Layer 3 ran (the
Layer-2 detector is a stub and never fires); in particular, for
industry `others` Layer 1 returns immediately with `isValid = true`,
zero errors (hence zero MISSING_FIELD errors) and
`fallbackLevel = 'industry'` — not unset as the claim stated. -/
theorem c2_fallback_amended (data : List Row) (industry : String) (hne : data ≠ []) :
    ((validateCSVData data industry).fallbackLevel = some FallbackLevel.industry ∨
      (validateCSVData data industry).fallbackLevel = some FallbackLevel.allPurpose) ∧
    (industry = "others" →
      (validateCSVData data industry).isValid = true ∧
      (validateCSVData data industry).fallbackLevel = some FallbackLevel.industry ∧
      (validateCSVData data industry).errors = []) := by
  have hem : data.isEmpty = false := by
    cases data with
    | nil => exact absurd rfl hne
    | cons a l => rfl
  constructor
  · rw [validateCSVData]
    simp only [hem, Bool.false_eq_true, if_false]
    split
    · exact Or.inl rfl
    · rw [validateLayers]
      dsimp only
      by_cases ho : industry = "others"
      · simp only [if_pos ho, detectDynamicSchema]
        split
        · exact Or.inl rfl
        · split
          · exact Or.inr rfl
          · exact Or.inl rfl
      · simp only [if_neg ho, detectDynamicSchema]
        split
        · exact Or.inl rfl
        · split
          · exact Or.inr rfl
          · exact Or.inl rfl
  · intro hoth
    subst hoth
    have hfin : strIncludes (jsToLower "others") "finance" = false := by
      with_unfolding_all rfl
    have hrun : validateCSVData data "others" =
        runValidation data OTHERS_SCHEMA "Generic" (some FallbackLevel.industry) := by
      rw [validateCSVData]
      simp only [hem, Bool.false_eq_true, if_false, hfin, Bool.false_and]
      rw [validateLayers]
      dsimp only
      simp only [if_true, decide_True, Bool.or_true]
      rfl
    rw [hrun]
    exact ⟨(runValidation_others data "Generic").2, rfl,
      (runValidation_others data "Generic").1⟩

/-- C2 witness: the amended theorem applied to the concrete
unrecognized-header dataset under industry `others`. -/
theorem c2_witness :
    (validateCSVData [[("zzz", "1")]] "others").isValid = true ∧
    (validateCSVData [[("zzz", "1")]] "others").fallbackLevel = some FallbackLevel.industry :=
  ⟨((c2_fallback_amended [[("zzz", "1")]] "others" (List.cons_ne_nil _ _)).2 rfl).1,
   ((c2_fallback_amended [[("zzz", "1")]] "others" (List.cons_ne_nil _ _)).2 rfl).2.1⟩

/-! ## C10 -/

/-- C10: for every non-empty dataset whose industry contains
`finance` (case-insensitively) and which has at least one header
containing one of the orchestrator's twelve finance keywords,
`validateCSVData` returns the Layer-1 industry result immediately with
`aiSuggestions` overwritten by the single fixed message, and never
escalates to Layer 2 or Layer 3. -/
theorem c10_finance_short_circuit (data : List Row) (industry : String) (hne : data ≠ [])
    (hfin : strIncludes (jsToLower industry) "finance" = true)
    (hhead : anyFinanceHeader (headersOf data) = true) :
    validateCSVData data industry =
      { runValidation data (schemaFor industry) "Finance" (some FallbackLevel.industry) with
          aiSuggestions :=
            some ["Finance dataset detected - using specialized financial analysis"] } := by
  have hem : data.isEmpty = false := by
    cases data with
    | nil => exact absurd rfl hne
    | cons a l => rfl
  rw [validateCSVData]
  simp only [hem, Bool.false_eq_true, if_false, hfin, hhead, Bool.and_self, if_pos]

/-- C10 witness: the theorem applied to a one-row dataset with an
`account` header under industry `finance`. -/
theorem c10_witness :
    validateCSVData [[("account", "1")]] "finance" =
      { runValidation [[("account", "1")]] (schemaFor "finance") "Finance"
          (some FallbackLevel.industry) with
          aiSuggestions :=
            some ["Finance dataset detected - using specialized financial analysis"] } :=
  c10_finance_short_circuit [[("account", "1")]] "finance" (List.cons_ne_nil _ _)
    (by with_unfolding_all rfl) (by with_unfolding_all rfl)

end CsvSensei
